import Mathlib

/-
Verification development for the health_ai_agent repository.

The embedding models the summary-generation workflow of
`health_ai_agent/api/ai.py` (endpoints `summarize_discharge`,
`list_recent_summaries`, `delete_patient_summaries`) over the data model of
`health_ai_agent/services/database.py` (tables `mimic_discharge_summaries`
and `ai_summaries`).

Modelling conventions:
- Python strings are `List Char` where character-level operations matter
  (the discharge narrative, prompt contents) and `String` elsewhere.
- Wall-clock instants (`time.time()`, `datetime.utcnow()`) are abstracted to
  an ordered additive group of integer ticks; the float representation of
  durations is not modelled, only its ordered arithmetic.
- The external generation client (`client.chat_completion`) is an oracle
  parameter returning either the generated text or a raised exception's
  message; the number of oracle invocations is counted in each outcome.
- A database commit that the store rejects is modelled by an oracle
  `commitError : Option String`: `some e` means the flush/commit raises an
  exception with message `e`; `none` means the write is accepted.  The
  `ai_summaries` table declares no uniqueness constraint on `hadm_id`
  (only a foreign key and an index), so the model never forces a rejection.
- `sqlalchemy` `scalar_one_or_none` returns the unique matching row, `none`
  when there is no match, and raises `MultipleResultsFound` on two or more.
-/

namespace HealthAI

/-- Wall-clock instants and durations, as integer ticks (see header). -/
abbrev Time := Int

/-- Table `mimic_discharge_summaries` (`class Patient`, database.py:31-47).
All columns except the primary key `hadm_id` are nullable. -/
structure Patient where
  hadm_id : Int
  subject_id : Option Int
  gender : Option String
  age_corrected : Option Int
  admission_type : Option String
  diagnosis : Option (List Char)
  hospital_expire_flag : Option Bool
  ed_los_hours : Option ℚ
  total_los_hours : Option ℚ
  charttime : Option Time
  category : Option String
  description : Option String
  text : Option (List Char)
  deriving DecidableEq

/-- Table `ai_summaries` (`class AISummary`, database.py:49-60).
`summary_text`, `original_length`, `processing_time` are non-nullable;
`hadm_id` carries a foreign key to the patient table and an index but no
uniqueness constraint. -/
structure AISummary where
  id : Int
  hadm_id : Int
  summary_text : String
  original_length : Nat
  processing_time : Int
  model_used : String
  created_at : Time
  deriving DecidableEq

/-- The relational store: both tables plus the autoincrement counter that
assigns `AISummary.id`. -/
structure DBState where
  patients : List Patient
  summaries : List AISummary
  nextId : Int
  deriving DecidableEq

/-- `scalar_one_or_none` on the rows matched by a `select ... where` query:
no row gives `none`, one row gives that row, several rows raise
`MultipleResultsFound`. -/
def scalarOneOrNone {α : Type} (rows : List α) : Except String (Option α) :=
  match rows with
  | [] => Except.ok none
  | [x] => Except.ok (some x)
  | _ => Except.error "Multiple rows were found when one or none was required"

/-- One role-tagged message of the chat request (ai.py:53-66). -/
structure ChatMessage where
  role : String
  content : List Char
  deriving DecidableEq

/-- The fixed system preamble of the prompt (ai.py:56-60, the five adjacent
Python string literals concatenate without a separator). -/
def med42SystemPrompt : List Char :=
  ("You are a helpful, respectful and honest medical assistant. You are a second version of Med42 developed by the AI team at M42. " ++
   "Always answer as helpfully as possible, while being safe. " ++
   "Your answers should not include any harmful, unethical, racist, sexist, toxic, dangerous, or illegal content. " ++
   "Please ensure that your responses are socially unbiased and positive in nature. If a question does not make any sense, or is not factually coherent, explain why instead of answering something not correct. " ++
   "If you don’t know the answer to a question, please don’t share false information.").toList

/-- The fixed lead of the user message, before the truncated narrative
(ai.py:63). -/
def summarizeInstruction : List Char :=
  "Summarize this discharge summary concisely:\n\n".toList

/-- The messages list built for the generation call (ai.py:53-66); the user
message carries `patient.text[:4000]`, i.e. the first 4000 characters of the
narrative. -/
def buildMessages (text : List Char) : List ChatMessage :=
  [⟨"system", med42SystemPrompt⟩,
   ⟨"user", summarizeInstruction ++ text.take 4000⟩]

/-- The external generation client: messages, `max_tokens`, `temperature` to
either the generated text (`response.choices[0].message.content`) or the
message of a raised exception (ai.py:71-76). -/
abbrev GenService := List ChatMessage → Nat → ℚ → Except String String

/-- `schemas/ai.py` `SummarySavedResponse`. -/
structure SummarySavedResponse where
  id : Int
  hadm_id : Int
  summary : String
  original_length : Nat
  created_at : Time
  processing_time : Int
  message : Option String
  deriving DecidableEq

/-- `schemas/ai.py` `SummaryListItem`. -/
structure SummaryListItem where
  id : Int
  hadm_id : Int
  summary : String
  original_length : Nat
  processing_time : Int
  created_at : Time
  deriving DecidableEq

/-- `schemas/ai.py` `SummaryListResponse`. -/
structure SummaryListResponse where
  summaries : List SummaryListItem
  total_count : Nat
  shown_count : Nat
  deriving DecidableEq

/-- An endpoint outcome: a response body, or an `HTTPException`-style status
plus detail. -/
inductive ApiResult (α : Type) where
  | ok (value : α)
  | httpError (status : Nat) (detail : String)
  deriving DecidableEq

/-- Detail of the 404 raised when the admission is absent (ai.py:32). -/
def patientNotFoundMsg : String := "Patient not found"

/-- Message attached when an existing summary is returned (ai.py:48). -/
def reuseMessage : String :=
  "Patient already has a corresponding summary. New summary was not generated."

/-- Detail head of the 500 raised when the generation call raises (ai.py:79). -/
def aiServiceErrorHead : String := "AI service error: "

/-- Detail head of the 500 raised when the store write raises (ai.py:110,197). -/
def databaseErrorHead : String := "Database error: "

/-- Model name default of the `model_used` column (database.py:57). -/
def med42ModelName : String := "m42-health/Llama3-Med42-8B"

/-- Result of one `summarize_discharge` call: the HTTP-level result, the
store state after the call, and how many times the generation client was
invoked during the call. -/
structure SummarizeOutcome where
  result : ApiResult SummarySavedResponse
  state : DBState
  genCalls : Nat
  deriving DecidableEq

/-- `summarize_discharge` (ai.py:18-110).

`hadm_id` is the query parameter, `request_hadm_id` is the request body's
`hadm_id` field (`SummarizeRequest`).  The patient lookup (ai.py:27) and the
persisted record (ai.py:85) use the query parameter; the existing-summary
check (ai.py:35) uses the request-body value.  `t0`/`t1` are the
`time.time()` readings around the generation call, `tCommit` the
`datetime.utcnow()` default applied at insert; `commitError` is the store's
verdict on the write (see header).  A `None` narrative makes
`patient.text[:4000]` raise a `TypeError` outside every handler, which the
framework surfaces as a bare 500. -/
def summarize (hadm_id request_hadm_id : Int) (gen : GenService)
    (t0 t1 tCommit : Time) (commitError : Option String) (s : DBState) :
    SummarizeOutcome :=
  match scalarOneOrNone (s.patients.filter (fun p => p.hadm_id == hadm_id)) with
  | Except.error e => ⟨ApiResult.httpError 500 e, s, 0⟩
  | Except.ok none => ⟨ApiResult.httpError 404 patientNotFoundMsg, s, 0⟩
  | Except.ok (some patient) =>
    match scalarOneOrNone
        (s.summaries.filter (fun x => x.hadm_id == request_hadm_id)) with
    | Except.error e => ⟨ApiResult.httpError 500 e, s, 0⟩
    | Except.ok (some existing_summary) =>
      ⟨ApiResult.ok ⟨existing_summary.id, existing_summary.hadm_id,
        existing_summary.summary_text, existing_summary.original_length,
        existing_summary.created_at, existing_summary.processing_time,
        some reuseMessage⟩, s, 0⟩
    | Except.ok none =>
      match patient.text with
      | none => ⟨ApiResult.httpError 500 ("Internal Server Error"), s, 0⟩
      | some text =>
        match gen (buildMessages text) 400 (0.5 : ℚ) with
        | Except.error e =>
          ⟨ApiResult.httpError 500 (aiServiceErrorHead ++ e), s, 1⟩
        | Except.ok summary =>
          match commitError with
          | some e =>
            ⟨ApiResult.httpError 500 (databaseErrorHead ++ e), s, 1⟩
          | none =>
            let new_summary : AISummary :=
              ⟨s.nextId, patient.hadm_id, summary, text.length, t1 - t0,
               med42ModelName, tCommit⟩
            ⟨ApiResult.ok ⟨new_summary.id, new_summary.hadm_id,
              new_summary.summary_text, new_summary.original_length,
              new_summary.created_at, new_summary.processing_time, none⟩,
             ⟨s.patients, s.summaries ++ [new_summary], s.nextId + 1⟩, 1⟩

/-- The row-to-item marshalling of the listing endpoint (ai.py:147-154). -/
def summaryListItemOf (x : AISummary) : SummaryListItem :=
  ⟨x.id, x.hadm_id, x.summary_text, x.original_length, x.processing_time,
   x.created_at⟩

/-- The `WHERE ai_summaries.summary_text IS NOT NULL` filter (ai.py:136):
the column is declared `nullable=False`, so every row passes. -/
def summaryTextNotNull (_ : AISummary) : Bool := true

/-- Rows ordered by `created_at` non-increasing. -/
def createdAtDesc (rows : List AISummary) : Prop :=
  rows.Chain' (fun a b => b.created_at ≤ a.created_at)

/-- The possible row lists of the listing query (ai.py:134-142):
`ORDER BY created_at DESC LIMIT limit` constrains only the `created_at`
order, so any arrangement of the filtered table that is sorted by
`created_at` descending may be returned, truncated to `limit` rows.  No
secondary sort key is given in the source, so the order of rows with equal
`created_at` is unspecified. -/
def recentQueryResult (s : DBState) (limit : Nat) (rows : List AISummary) :
    Prop :=
  ∃ ordering : List AISummary,
    (s.summaries.filter summaryTextNotNull).Perm ordering ∧
    createdAtDesc ordering ∧ rows = ordering.take limit

/-- `list_recent_summaries` (ai.py:113-160) as a relation between the store
state and the possible successful responses: `total_count` is the full table
count (ai.py:122-123), an empty table short-circuits to the empty response
(ai.py:126-131), and otherwise the rows come from the recency query. -/
def list_recent_summaries (limit : Nat) (s : DBState)
    (resp : SummaryListResponse) : Prop :=
  if s.summaries.length = 0 then
    resp = ⟨[], 0, 0⟩
  else
    ∃ rows : List AISummary, recentQueryResult s limit rows ∧
      resp = ⟨rows.map summaryListItemOf, s.summaries.length,
              (rows.map summaryListItemOf).length⟩

/-- Detail head of the 404 raised when no summary exists to delete
(ai.py:181). -/
def noSummariesFoundHead : String := "No summaries found for patient "

/-- Message head of the delete endpoint's success body (ai.py:189). -/
def deleteSuccessHead : String := "Successfully deleted summary for patient "

/-- Outcome of `delete_patient_summaries`: the success body or an
`HTTPException`-style status plus detail. -/
inductive DeleteResult where
  | ok (message : String) (hadm_id : Int)
  | httpError (status : Nat) (detail : String)
  deriving DecidableEq

/-- `delete_patient_summaries` (ai.py:167-197): fetch the rows for the
admission; none raises 404 (re-raised past the generic handler, ai.py:193);
otherwise delete them all and commit, rolling back to the unchanged state on
a store error. -/
def delete_patient_summaries (hadm_id : Int) (commitError : Option String)
    (s : DBState) : DeleteResult × DBState :=
  match s.summaries.filter (fun x => x.hadm_id == hadm_id) with
  | [] =>
    (DeleteResult.httpError 404 (noSummariesFoundHead ++ toString hadm_id), s)
  | _ :: _ =>
    match commitError with
    | some e => (DeleteResult.httpError 500 (databaseErrorHead ++ e), s)
    | none =>
      (DeleteResult.ok (deleteSuccessHead ++ toString hadm_id) hadm_id,
       ⟨s.patients, s.summaries.filter (fun x => !(x.hadm_id == hadm_id)),
        s.nextId⟩)

/-! ## Helper lemmas -/

theorem scalarOneOrNone_ok_none {α : Type} {l : List α}
    (h : scalarOneOrNone l = Except.ok none) : l = [] := by
  cases l with
  | nil => rfl
  | cons a t =>
    cases t with
    | nil => simp [scalarOneOrNone] at h
    | cons b t2 => simp [scalarOneOrNone] at h

theorem scalarOneOrNone_ok_some {α : Type} {l : List α} {a : α}
    (h : scalarOneOrNone l = Except.ok (some a)) : l = [a] := by
  cases l with
  | nil => simp [scalarOneOrNone] at h
  | cons b t =>
    cases t with
    | nil =>
      simp [scalarOneOrNone] at h
      simp [h]
    | cons c t2 => simp [scalarOneOrNone] at h

theorem filter_singleton_mem {α : Type} {l : List α} {p : α → Bool} {a : α}
    (h : l.filter p = [a]) : a ∈ l ∧ p a = true := by
  have ha : a ∈ l.filter p := by
    rw [h]
    exact List.mem_singleton_self a
  exact ⟨List.mem_of_mem_filter ha, (List.mem_filter.mp ha).2⟩

/-! ## Concrete fixtures used by witnesses and counterexamples -/

/-- The generated text returned by the witness generation oracle. -/
def genTextW : String := "The patient was admitted and discharged."

/-- A generation oracle that always succeeds. -/
def genW : GenService := fun _ _ _ => Except.ok genTextW

/-- The exception message of the failing witness generation oracle. -/
def genFailMsgW : String := "Service Unavailable"

/-- A generation oracle that always raises. -/
def genFailW : GenService := fun _ _ _ => Except.error genFailMsgW

/-- An admission with a 5000-character narrative, § 8 concrete scenario. -/
def patientW : Patient :=
  ⟨170490, none, none, none, none, none, none, none, none, none, none, none,
   some (List.replicate 5000 'a')⟩

/-- A store holding `patientW` and no summaries. -/
def freshStateW : DBState := ⟨[patientW], [], 1⟩

/-- An empty store. -/
def emptyStateW : DBState := ⟨[], [], 1⟩

/-- An existing summary for admission 170490. -/
def existingSummaryW : AISummary :=
  ⟨1, 170490, "Existing summary.", 5000, 2, med42ModelName, 10⟩

/-- A store where admission 170490 already has a summary. -/
def dupStateW : DBState := ⟨[patientW], [existingSummaryW], 2⟩

/-! ## Claim theorems -/

/-- Claim C7: for every admission identifier not present in the admission
set, `summarize` fails with a 404 Patient-not-found, leaves the store
unchanged, and never invokes the generation service. -/
theorem summarize_absent_admission_not_found
    (hadm_id request_hadm_id : Int) (gen : GenService) (t0 t1 tc : Time)
    (ce : Option String) (s : DBState)
    (h : s.patients.filter (fun p => p.hadm_id == hadm_id) = []) :
    summarize hadm_id request_hadm_id gen t0 t1 tc ce s =
      ⟨ApiResult.httpError 404 patientNotFoundMsg, s, 0⟩ := by
  simp [summarize, h, scalarOneOrNone]

/-- Witness for C7 at admission 170490 against the empty store. -/
theorem summarize_absent_admission_not_found_witness :
    emptyStateW.patients.filter (fun p => p.hadm_id == 170490) = [] ∧
    summarize 170490 170490 genW 0 1 5 none emptyStateW =
      ⟨ApiResult.httpError 404 patientNotFoundMsg, emptyStateW, 0⟩ :=
  ⟨rfl, summarize_absent_admission_not_found 170490 170490 genW 0 1 5 none
    emptyStateW rfl⟩

/-- Claim C2: for an admission present in the store with no existing
summary, `summarize` followed by `summarize` with the same identifier
returns the same record (identical store identifier, admission identifier
and text) on both calls, the generation service is invoked exactly once
across the two calls, and only the second response carries the reuse
message. -/
theorem summarize_idempotent_reuse
    (A : Int) (p : Patient) (text : List Char) (txt : String)
    (gen : GenService) (t0 t1 tc t0' t1' tc' : Time) (ce' : Option String)
    (s : DBState)
    (hp : s.patients.filter (fun q => q.hadm_id == A) = [p])
    (htext : p.text = some text)
    (hs : s.summaries.filter (fun x => x.hadm_id == A) = [])
    (hg : gen (buildMessages text) 400 (0.5 : ℚ) = Except.ok txt) :
    ∃ r1 r2 : SummarySavedResponse,
      (summarize A A gen t0 t1 tc none s).result = ApiResult.ok r1 ∧
      (summarize A A gen t0' t1' tc' ce'
        (summarize A A gen t0 t1 tc none s).state).result = ApiResult.ok r2 ∧
      r2.id = r1.id ∧ r2.hadm_id = r1.hadm_id ∧ r2.summary = r1.summary ∧
      r1.message = none ∧ r2.message = some reuseMessage ∧
      (summarize A A gen t0 t1 tc none s).genCalls +
        (summarize A A gen t0' t1' tc' ce'
          (summarize A A gen t0 t1 tc none s).state).genCalls = 1 := by
  have hbeq : (p.hadm_id == A) = true := (filter_singleton_mem hp).2
  have h1 : summarize A A gen t0 t1 tc none s =
      ⟨ApiResult.ok ⟨s.nextId, p.hadm_id, txt, text.length, tc, t1 - t0, none⟩,
       ⟨s.patients,
        s.summaries ++
          [⟨s.nextId, p.hadm_id, txt, text.length, t1 - t0, med42ModelName, tc⟩],
        s.nextId + 1⟩, 1⟩ := by
    simp [summarize, hp, hs, htext, hg, scalarOneOrNone]
  refine ⟨⟨s.nextId, p.hadm_id, txt, text.length, tc, t1 - t0, none⟩,
    ⟨s.nextId, p.hadm_id, txt, text.length, tc, t1 - t0, some reuseMessage⟩,
    ?_, ?_, rfl, rfl, rfl, rfl, rfl, ?_⟩
  · rw [h1]
  · rw [h1]
    simp [summarize, hp, htext, List.filter_append, hs, hbeq, scalarOneOrNone]
  · rw [h1]
    simp [summarize, hp, htext, List.filter_append, hs, hbeq, scalarOneOrNone]

/-- Witness for C2: the § 8 scenario, admission 170490 with a
5000-character narrative and no existing summary. -/
theorem summarize_idempotent_reuse_witness :
    (freshStateW.patients.filter (fun q => q.hadm_id == 170490) = [patientW] ∧
     patientW.text = some (List.replicate 5000 'a') ∧
     freshStateW.summaries.filter (fun x => x.hadm_id == 170490) = [] ∧
     genW (buildMessages (List.replicate 5000 'a')) 400 (0.5 : ℚ) =
       Except.ok genTextW) ∧
    (∃ r1 r2 : SummarySavedResponse,
      (summarize 170490 170490 genW 0 1 5 none freshStateW).result =
        ApiResult.ok r1 ∧
      (summarize 170490 170490 genW 6 7 8 none
        (summarize 170490 170490 genW 0 1 5 none freshStateW).state).result =
        ApiResult.ok r2 ∧
      r2.id = r1.id ∧ r2.hadm_id = r1.hadm_id ∧ r2.summary = r1.summary ∧
      r1.message = none ∧ r2.message = some reuseMessage ∧
      (summarize 170490 170490 genW 0 1 5 none freshStateW).genCalls +
        (summarize 170490 170490 genW 6 7 8 none
          (summarize 170490 170490 genW 0 1 5 none freshStateW).state).genCalls
        = 1) :=
  ⟨⟨rfl, rfl, rfl, rfl⟩,
   summarize_idempotent_reuse 170490 patientW (List.replicate 5000 'a')
     genTextW genW 0 1 5 6 7 8 none freshStateW rfl rfl rfl rfl⟩

/-- Claim C5: for a narrative longer than 4000 characters, the prompt of
the generation call is exactly the fixed system preamble plus one user
message whose content is the fixed instruction followed by the first 4000
characters of the narrative (a length-4000 prefix of it), and the created
summary stores the full untruncated narrative length as `original_length`
and a strictly positive `processing_time` (the clock advances across the
call). -/
theorem summarize_truncated_prompt
    (hadm_id request_hadm_id : Int) (p : Patient) (text : List Char)
    (txt : String) (gen : GenService) (t0 t1 tc : Time) (s : DBState)
    (hp : s.patients.filter (fun q => q.hadm_id == hadm_id) = [p])
    (htext : p.text = some text)
    (hlen : 4000 < text.length)
    (hs : s.summaries.filter (fun x => x.hadm_id == request_hadm_id) = [])
    (hg : gen (buildMessages text) 400 (0.5 : ℚ) = Except.ok txt)
    (ht : t0 < t1) :
    buildMessages text =
      [⟨"system", med42SystemPrompt⟩,
       ⟨"user", summarizeInstruction ++ text.take 4000⟩] ∧
    (text.take 4000).length = 4000 ∧ text.take 4000 <+: text ∧
    ∃ n : AISummary,
      (summarize hadm_id request_hadm_id gen t0 t1 tc none s).state.summaries
        = s.summaries ++ [n] ∧
      n.summary_text = txt ∧ n.original_length = text.length ∧
      0 < n.processing_time ∧
      (summarize hadm_id request_hadm_id gen t0 t1 tc none s).result =
        ApiResult.ok ⟨n.id, n.hadm_id, n.summary_text, n.original_length,
          n.created_at, n.processing_time, none⟩ := by
  refine ⟨rfl, ?_, List.take_prefix 4000 text, ?_⟩
  · rw [List.length_take]
    omega
  · refine ⟨⟨s.nextId, p.hadm_id, txt, text.length, t1 - t0, med42ModelName,
      tc⟩, ?_, rfl, rfl, ?_, ?_⟩
    · simp [summarize, hp, hs, htext, hg, scalarOneOrNone]
    · exact Int.sub_pos.mpr ht
    · simp [summarize, hp, hs, htext, hg, scalarOneOrNone]

/-- Witness for C5: the § 8 scenario, a 5000-character narrative. -/
theorem summarize_truncated_prompt_witness :
    (freshStateW.patients.filter (fun q => q.hadm_id == 170490) = [patientW] ∧
     patientW.text = some (List.replicate 5000 'a') ∧
     4000 < (List.replicate 5000 'a').length ∧
     freshStateW.summaries.filter (fun x => x.hadm_id == 170490) = [] ∧
     (0 : Time) < 1) ∧
    (buildMessages (List.replicate 5000 'a') =
      [⟨"system", med42SystemPrompt⟩,
       ⟨"user", summarizeInstruction ++ (List.replicate 5000 'a').take 4000⟩] ∧
    ((List.replicate 5000 'a').take 4000).length = 4000 ∧
    (List.replicate 5000 'a').take 4000 <+: List.replicate 5000 'a' ∧
    ∃ n : AISummary,
      (summarize 170490 170490 genW 0 1 5 none freshStateW).state.summaries
        = freshStateW.summaries ++ [n] ∧
      n.summary_text = genTextW ∧
      n.original_length = (List.replicate 5000 'a').length ∧
      0 < n.processing_time ∧
      (summarize 170490 170490 genW 0 1 5 none freshStateW).result =
        ApiResult.ok ⟨n.id, n.hadm_id, n.summary_text, n.original_length,
          n.created_at, n.processing_time, none⟩) :=
  ⟨⟨rfl, rfl, by simp only [List.length_replicate]; decide, rfl, by decide⟩,
   summarize_truncated_prompt 170490 170490 patientW
     (List.replicate 5000 'a') genTextW genW 0 1 5 freshStateW rfl rfl
     (by simp only [List.length_replicate]; decide) rfl rfl (by decide)⟩

/-- Claim C8: if the generation call raises, `summarize` fails with a 500
server error whose detail carries the underlying cause, the generation
service was invoked exactly once (no internal retry), and the store is
unchanged. -/
theorem summarize_generation_failure
    (hadm_id request_hadm_id : Int) (p : Patient) (text : List Char)
    (e : String) (gen : GenService) (t0 t1 tc : Time) (ce : Option String)
    (s : DBState)
    (hp : s.patients.filter (fun q => q.hadm_id == hadm_id) = [p])
    (htext : p.text = some text)
    (hs : s.summaries.filter (fun x => x.hadm_id == request_hadm_id) = [])
    (hg : gen (buildMessages text) 400 (0.5 : ℚ) = Except.error e) :
    summarize hadm_id request_hadm_id gen t0 t1 tc ce s =
      ⟨ApiResult.httpError 500 (aiServiceErrorHead ++ e), s, 1⟩ := by
  simp [summarize, hp, hs, htext, hg, scalarOneOrNone]

/-- Witness for C8: the always-raising oracle against admission 170490. -/
theorem summarize_generation_failure_witness :
    (freshStateW.patients.filter (fun q => q.hadm_id == 170490) = [patientW] ∧
     patientW.text = some (List.replicate 5000 'a') ∧
     freshStateW.summaries.filter (fun x => x.hadm_id == 170490) = [] ∧
     genFailW (buildMessages (List.replicate 5000 'a')) 400 (0.5 : ℚ) =
       Except.error genFailMsgW) ∧
    summarize 170490 170490 genFailW 0 1 5 none freshStateW =
      ⟨ApiResult.httpError 500 (aiServiceErrorHead ++ genFailMsgW),
       freshStateW, 1⟩ :=
  ⟨⟨rfl, rfl, rfl, rfl⟩,
   summarize_generation_failure 170490 170490 patientW
     (List.replicate 5000 'a') genFailMsgW genFailW 0 1 5 none freshStateW
     rfl rfl rfl rfl⟩

/-- The store-rejection message of the C3 scenario: a uniqueness violation
on the summary's admission column. -/
def uniqueViolationMsg : String := "UNIQUE constraint failed: ai_summaries.hadm_id"

/-- Counterexample to claim C3 as stated: admission 170490 already has a
summary, a call whose body identifier 999 lets the check pass reaches the
write, and the store rejects the write as a duplicate; `summarize` then
surfaces a 500 database error instead of re-fetching and returning the
existing summary with a reuse flag. -/
theorem summarize_persist_failure_counterexample :
    (summarize 170490 999 genW 0 1 5 (some uniqueViolationMsg)
      dupStateW).result =
      ApiResult.httpError 500 (databaseErrorHead ++ uniqueViolationMsg) :=
  rfl

/-- Claim C3 amended: when persisting the generated summary fails — for
whatever reason the store rejects the write, a duplicate row included —
`summarize` rolls the transaction back (the store is unchanged) and
surfaces a 500 database error carrying the cause; it performs no re-fetch
and returns no summary. -/
theorem summarize_persist_failure_rolls_back
    (hadm_id request_hadm_id : Int) (p : Patient) (text : List Char)
    (txt e : String) (gen : GenService) (t0 t1 tc : Time) (s : DBState)
    (hp : s.patients.filter (fun q => q.hadm_id == hadm_id) = [p])
    (htext : p.text = some text)
    (hs : s.summaries.filter (fun x => x.hadm_id == request_hadm_id) = [])
    (hg : gen (buildMessages text) 400 (0.5 : ℚ) = Except.ok txt) :
    summarize hadm_id request_hadm_id gen t0 t1 tc (some e) s =
      ⟨ApiResult.httpError 500 (databaseErrorHead ++ e), s, 1⟩ := by
  simp [summarize, hp, hs, htext, hg, scalarOneOrNone]

/-- Witness for the amended C3 at admission 170490 with a rejected write. -/
theorem summarize_persist_failure_rolls_back_witness :
    (freshStateW.patients.filter (fun q => q.hadm_id == 170490) = [patientW] ∧
     patientW.text = some (List.replicate 5000 'a') ∧
     freshStateW.summaries.filter (fun x => x.hadm_id == 170490) = [] ∧
     genW (buildMessages (List.replicate 5000 'a')) 400 (0.5 : ℚ) =
       Except.ok genTextW) ∧
    summarize 170490 170490 genW 0 1 5 (some uniqueViolationMsg) freshStateW =
      ⟨ApiResult.httpError 500 (databaseErrorHead ++ uniqueViolationMsg),
       freshStateW, 1⟩ :=
  ⟨⟨rfl, rfl, rfl, rfl⟩,
   summarize_persist_failure_rolls_back 170490 170490 patientW
     (List.replicate 5000 'a') genTextW uniqueViolationMsg genW 0 1 5
     freshStateW rfl rfl rfl rfl⟩

/-- Claim C9: on a call whose store write is rejected, the transaction is
rolled back before the error is surfaced: the resulting store equals the
pre-call store (no partial summary row is visible to subsequent reads) and
the caller receives the 500 database error. -/
theorem summarize_write_rejected_state_unchanged
    (hadm_id request_hadm_id : Int) (p : Patient) (text : List Char)
    (txt e : String) (gen : GenService) (t0 t1 tc : Time) (s : DBState)
    (hp : s.patients.filter (fun q => q.hadm_id == hadm_id) = [p])
    (htext : p.text = some text)
    (hs : s.summaries.filter (fun x => x.hadm_id == request_hadm_id) = [])
    (hg : gen (buildMessages text) 400 (0.5 : ℚ) = Except.ok txt) :
    (summarize hadm_id request_hadm_id gen t0 t1 tc (some e) s).state = s ∧
    (summarize hadm_id request_hadm_id gen t0 t1 tc (some e) s).result =
      ApiResult.httpError 500 (databaseErrorHead ++ e) := by
  constructor
  · simp [summarize, hp, hs, htext, hg, scalarOneOrNone]
  · simp [summarize, hp, hs, htext, hg, scalarOneOrNone]

/-- Witness for C9 at admission 170490 with a rejected write. -/
theorem summarize_write_rejected_state_unchanged_witness :
    (freshStateW.patients.filter (fun q => q.hadm_id == 170490) = [patientW] ∧
     patientW.text = some (List.replicate 5000 'a') ∧
     freshStateW.summaries.filter (fun x => x.hadm_id == 170490) = [] ∧
     genW (buildMessages (List.replicate 5000 'a')) 400 (0.5 : ℚ) =
       Except.ok genTextW) ∧
    ((summarize 170490 170490 genW 0 1 5 (some uniqueViolationMsg)
        freshStateW).state = freshStateW ∧
     (summarize 170490 170490 genW 0 1 5 (some uniqueViolationMsg)
        freshStateW).result =
       ApiResult.httpError 500 (databaseErrorHead ++ uniqueViolationMsg)) :=
  ⟨⟨rfl, rfl, rfl, rfl⟩,
   summarize_write_rejected_state_unchanged 170490 170490 patientW
     (List.replicate 5000 'a') genTextW uniqueViolationMsg genW 0 1 5
     freshStateW rfl rfl rfl rfl⟩

/-- Claim C4: whenever a `summarize` call changes the summary table, the
existing-summary check that let it proceed was against the request-body
identifier, the single appended record carries the query-parameter
identifier — whatever the body value — and a patient with that identifier
exists in the store at creation time. -/
theorem summarize_created_uses_query_id
    (hadm_id request_hadm_id : Int) (gen : GenService) (t0 t1 tc : Time)
    (ce : Option String) (s : DBState)
    (hchange : (summarize hadm_id request_hadm_id gen t0 t1 tc ce
      s).state.summaries ≠ s.summaries) :
    s.summaries.filter (fun x => x.hadm_id == request_hadm_id) = [] ∧
    ∃ n : AISummary,
      (summarize hadm_id request_hadm_id gen t0 t1 tc ce s).state.summaries =
        s.summaries ++ [n] ∧ n.hadm_id = hadm_id ∧
      ∃ q : Patient, q ∈ s.patients ∧ q.hadm_id = hadm_id := by
  rcases e1 : scalarOneOrNone
      (s.patients.filter (fun q => q.hadm_id == hadm_id)) with msg | op
  · exact absurd (by simp [summarize, e1]) hchange
  · rcases op with _ | patient
    · exact absurd (by simp [summarize, e1]) hchange
    · rcases e2 : scalarOneOrNone
          (s.summaries.filter (fun x => x.hadm_id == request_hadm_id)) with
          msg | op2
      · exact absurd (by simp [summarize, e1, e2]) hchange
      · rcases op2 with _ | ex
        · rcases e3 : patient.text with _ | text
          · exact absurd (by simp [summarize, e1, e2, e3]) hchange
          · rcases e4 : gen (buildMessages text) 400 (0.5 : ℚ) with emsg | txt
            · exact absurd (by simp [summarize, e1, e2, e3, e4]) hchange
            · rcases ce with _ | cemsg
              · have hmem := filter_singleton_mem (scalarOneOrNone_ok_some e1)
                have hpid : patient.hadm_id = hadm_id := by
                  have h2 := hmem.2
                  simpa using h2
                refine ⟨scalarOneOrNone_ok_none e2,
                  ⟨s.nextId, patient.hadm_id, txt, text.length, t1 - t0,
                   med42ModelName, tc⟩, ?_, hpid, patient, hmem.1, hpid⟩
                simp [summarize, e1, e2, e3, e4]
              · exact absurd (by simp [summarize, e1, e2, e3, e4]) hchange
        · exact absurd (by simp [summarize, e1, e2]) hchange

/-- Witness for C4: query identifier 170490, body identifier 999, against
the fresh store; a record is created and carries 170490. -/
theorem summarize_created_uses_query_id_witness :
    (summarize 170490 999 genW 0 1 5 none freshStateW).state.summaries ≠
      freshStateW.summaries ∧
    (freshStateW.summaries.filter (fun x => x.hadm_id == 999) = [] ∧
     ∃ n : AISummary,
       (summarize 170490 999 genW 0 1 5 none freshStateW).state.summaries =
         freshStateW.summaries ++ [n] ∧ n.hadm_id = 170490 ∧
       ∃ q : Patient, q ∈ freshStateW.patients ∧ q.hadm_id = 170490) :=
  ⟨by decide,
   summarize_created_uses_query_id 170490 999 genW 0 1 5 none freshStateW
     (by decide)⟩

/-- Counterexample to claim C1 as stated: admission 170490 already has its
one summary, yet a single `summarize` call with query identifier 170490 and
body identifier 999 creates a second summary for 170490, because the
existence check ran against the body identifier and the table carries no
uniqueness constraint. -/
theorem summarize_duplicate_counterexample :
    (dupStateW.summaries.filter (fun x => x.hadm_id == 170490)).length = 1 ∧
    ((summarize 170490 999 genW 0 1 5 none dupStateW).state.summaries.filter
      (fun x => x.hadm_id == 170490)).length = 2 :=
  ⟨rfl, rfl⟩

/-- Claim C1 amended: the existence check runs against the request-body
identifier while the insert uses the query-parameter identifier; when the
two identifiers coincide (as for every well-formed request), a `summarize`
call preserves the at-most-one-summary-per-admission invariant, and the
check is what enforces it — no summary is inserted for an admission whose
identifier already has one.  When the identifiers differ, a single call can
create a duplicate (see the counterexample). -/
theorem summarize_same_ids_preserve_uniqueness
    (A : Int) (gen : GenService) (t0 t1 tc : Time) (ce : Option String)
    (s : DBState)
    (hinv : ∀ a : Int,
      (s.summaries.filter (fun x => x.hadm_id == a)).length ≤ 1) :
    ∀ a : Int,
      ((summarize A A gen t0 t1 tc ce s).state.summaries.filter
        (fun x => x.hadm_id == a)).length ≤ 1 := by
  intro a
  rcases e1 : scalarOneOrNone
      (s.patients.filter (fun q => q.hadm_id == A)) with msg | op
  · simpa [summarize, e1] using hinv a
  · rcases op with _ | patient
    · simpa [summarize, e1] using hinv a
    · rcases e2 : scalarOneOrNone
          (s.summaries.filter (fun x => x.hadm_id == A)) with msg | op2
      · simpa [summarize, e1, e2] using hinv a
      · rcases op2 with _ | ex
        · rcases e3 : patient.text with _ | text
          · simpa [summarize, e1, e2, e3] using hinv a
          · rcases e4 : gen (buildMessages text) 400 (0.5 : ℚ) with emsg | txt
            · simpa [summarize, e1, e2, e3, e4] using hinv a
            · rcases ce with _ | cemsg
              · have hfil0 : s.summaries.filter (fun x => x.hadm_id == A) =
                    [] := scalarOneOrNone_ok_none e2
                have hpid : patient.hadm_id = A := by
                  have h2 :=
                    (filter_singleton_mem (scalarOneOrNone_ok_some e1)).2
                  simpa using h2
                have hstate : (summarize A A gen t0 t1 tc none
                    s).state.summaries = s.summaries ++
                    [⟨s.nextId, patient.hadm_id, txt, text.length, t1 - t0,
                      med42ModelName, tc⟩] := by
                  simp [summarize, e1, e2, e3, e4]
                rw [hstate, List.filter_append, List.length_append]
                by_cases hcase : patient.hadm_id = a
                · have ha : a = A := Eq.trans hcase.symm hpid
                  subst ha
                  simp [hfil0, List.filter_cons, hpid]
                · have hnew : List.filter (fun x => x.hadm_id == a)
                      [(⟨s.nextId, patient.hadm_id, txt, text.length,
                        t1 - t0, med42ModelName, tc⟩ : AISummary)] = [] := by
                    simp [List.filter_cons, hcase]
                  rw [hnew]
                  simpa using hinv a
              · simpa [summarize, e1, e2, e3, e4] using hinv a
        · simpa [summarize, e1, e2] using hinv a

/-- Witness for the amended C1: a call for admission 170490 against the
fresh store (which trivially satisfies the invariant) keeps every
admission's summary count at most one. -/
theorem summarize_same_ids_preserve_uniqueness_witness :
    (∀ a : Int,
      (freshStateW.summaries.filter (fun x => x.hadm_id == a)).length ≤ 1) ∧
    (∀ a : Int,
      ((summarize 170490 170490 genW 0 1 5 none
        freshStateW).state.summaries.filter
          (fun x => x.hadm_id == a)).length ≤ 1) :=
  ⟨fun a => by simp [freshStateW],
   summarize_same_ids_preserve_uniqueness 170490 genW 0 1 5 none freshStateW
     (fun a => by simp [freshStateW])⟩

/-- Response items ordered by `created_at` non-increasing. -/
def itemsCreatedAtDesc (items : List SummaryListItem) : Prop :=
  items.Chain' (fun a b => b.created_at ≤ a.created_at)

/-- Response items ordered by `created_at` descending with ties broken by
identifier descending — the order claim C6 asserts. -/
def itemsIdDescOnTies (items : List SummaryListItem) : Prop :=
  items.Chain' (fun a b =>
    b.created_at < a.created_at ∨
    (b.created_at = a.created_at ∧ b.id < a.id))

/-- Two summaries sharing one `created_at` instant. -/
def tieSummaryA : AISummary :=
  ⟨1, 100, "Tie summary one.", 10, 1, med42ModelName, 50⟩

/-- The later-inserted summary of the tied pair. -/
def tieSummaryB : AISummary :=
  ⟨2, 101, "Tie summary two.", 10, 1, med42ModelName, 50⟩

/-- A store holding exactly the tied pair. -/
def tieStateW : DBState := ⟨[], [tieSummaryA, tieSummaryB], 3⟩

/-- The listing response that returns the tied pair in ascending-identifier
order. -/
def tieRespW : SummaryListResponse :=
  ⟨[summaryListItemOf tieSummaryA, summaryListItemOf tieSummaryB], 2, 2⟩

/-- Counterexample to claim C6 as stated: the listing query orders only by
`created_at` descending (ai.py:137 names no secondary key), so on a store
with two summaries sharing a `created_at` a response listing them by
ascending identifier is a possible result — the claimed
identifier-descending tie-break does not hold of it. -/
theorem list_summaries_tie_order_counterexample :
    list_recent_summaries 2 tieStateW tieRespW ∧
    ¬ itemsIdDescOnTies tieRespW.summaries := by
  constructor
  · unfold list_recent_summaries
    rw [if_neg (by decide)]
    refine ⟨[tieSummaryA, tieSummaryB],
      ⟨[tieSummaryA, tieSummaryB], ?_, ?_, rfl⟩, rfl⟩
    · exact List.Perm.of_eq rfl
    · simp [createdAtDesc, List.chain'_cons, tieSummaryA, tieSummaryB]
  · intro h
    simp [itemsIdDescOnTies, tieRespW, summaryListItemOf, tieSummaryA,
      tieSummaryB, List.chain'_cons] at h

/-- Claim C6 amended: for every accepted limit, every possible successful
listing response holds at most `limit` records, in `created_at`
non-increasing order (the order among records with equal `created_at` is
unspecified — no identifier tie-break is enforced), with
`shown_count = len(summaries) ≤ total_count` and `total_count` the full
table count. -/
theorem list_summaries_bounds
    (limit : Nat) (s : DBState) (resp : SummaryListResponse)
    (hlo : 1 ≤ limit) (hhi : limit ≤ 50)
    (h : list_recent_summaries limit s resp) :
    resp.summaries.length ≤ limit ∧ itemsCreatedAtDesc resp.summaries ∧
    resp.shown_count = resp.summaries.length ∧
    resp.total_count = s.summaries.length ∧
    resp.shown_count ≤ resp.total_count := by
  unfold list_recent_summaries at h
  by_cases hz : s.summaries.length = 0
  · rw [if_pos hz] at h
    subst h
    exact ⟨Nat.zero_le limit, by simp [itemsCreatedAtDesc], rfl, hz.symm,
      Nat.le_refl 0⟩
  · rw [if_neg hz] at h
    obtain ⟨rows, ⟨ordering, hperm, hsort, hrows⟩, hresp⟩ := h
    subst hresp
    subst hrows
    have hordlen : ordering.length = s.summaries.length := by
      have hpl := hperm.length_eq
      have hfl : (s.summaries.filter summaryTextNotNull).length =
          s.summaries.length := by
        simp [summaryTextNotNull]
      rw [hfl] at hpl
      exact hpl.symm
    refine ⟨?_, ?_, rfl, rfl, ?_⟩
    · rw [List.length_map, List.length_take]
      exact min_le_left _ _
    · have hch : (ordering.take limit).Chain'
          (fun a b => b.created_at ≤ a.created_at) :=
        List.Chain'.prefix hsort ( List.take_prefix limit ordering)
      exact (List.chain'_map summaryListItemOf).mpr hch
    · show ((ordering.take limit).map summaryListItemOf).length ≤
        s.summaries.length
      rw [List.length_map, List.length_take, ← hordlen]
      exact min_le_right _ _

/-- Witness for the amended C6: limit 5 against the two-summary store. -/
theorem list_summaries_bounds_witness :
    ((1 : Nat) ≤ 5 ∧ (5 : Nat) ≤ 50 ∧
     list_recent_summaries 5 tieStateW tieRespW) ∧
    (tieRespW.summaries.length ≤ 5 ∧ itemsCreatedAtDesc tieRespW.summaries ∧
     tieRespW.shown_count = tieRespW.summaries.length ∧
     tieRespW.total_count = tieStateW.summaries.length ∧
     tieRespW.shown_count ≤ tieRespW.total_count) := by
  have hrel : list_recent_summaries 5 tieStateW tieRespW := by
    unfold list_recent_summaries
    rw [if_neg (by decide)]
    refine ⟨[tieSummaryA, tieSummaryB],
      ⟨[tieSummaryA, tieSummaryB], ?_, ?_, rfl⟩, rfl⟩
    · exact List.Perm.of_eq rfl
    · simp [createdAtDesc, List.chain'_cons, tieSummaryA, tieSummaryB]
  exact ⟨⟨by decide, by decide, hrel⟩,
    list_summaries_bounds 5 tieStateW tieRespW (by decide) (by decide) hrel⟩

/-- Claim C10: deleting the summaries of an admission that has none reports
a 404 not-found and performs no destructive side effect — the store
(patients and summaries alike) is returned unchanged. -/
theorem delete_no_rows_not_found
    (hadm_id : Int) (ce : Option String) (s : DBState)
    (h : s.summaries.filter (fun x => x.hadm_id == hadm_id) = []) :
    delete_patient_summaries hadm_id ce s =
      (DeleteResult.httpError 404 (noSummariesFoundHead ++ toString hadm_id),
       s) := by
  simp [delete_patient_summaries, h]

/-- Witness for C10: admission 42 against the fresh store, which has no
summaries at all. -/
theorem delete_no_rows_not_found_witness :
    freshStateW.summaries.filter (fun x => x.hadm_id == 42) = [] ∧
    delete_patient_summaries 42 none freshStateW =
      (DeleteResult.httpError 404 (noSummariesFoundHead ++ toString (42 : Int)),
       freshStateW) :=
  ⟨rfl, delete_no_rows_not_found 42 none freshStateW rfl⟩

end HealthAI
